import Mathlib

/-!
Shallow embedding of the monitoring core of `5_QueueMonitor.py` (class
`JVMThread` of the QueueMonitor tool): queue browsing, topic subscription,
the poll loop body, destination discovery, connection teardown and the
monitoring lifecycle.  Python dictionaries become association lists,
Python sets of message ids become `Finset String`, broker-side JMS
messages become the record `JMsg`, and the places where the source
catches an exception around a broker accessor are modelled by explicit
failure flags on that record.
-/

namespace QueueMonitor

/-- Character-list test used to model Python's substring operator:
`chListPre pat l` holds when `pat` is an initial segment of `l`. -/
def chListPre : List Char → List Char → Bool
  | [], _ => true
  | _ :: _, [] => false
  | a :: as, b :: bs => (a == b) && chListPre as bs

/-- `chListSub pat l` models Python's `pat in l`: `pat` occurs
contiguously somewhere inside `l`. -/
def chListSub (pat : List Char) : List Char → Bool
  | [] => List.isEmpty pat
  | c :: rest => chListPre pat (c :: rest) || chListSub pat rest

/-- Python's `pat in s` on strings. -/
def strContains (s pat : String) : Bool :=
  chListSub pat.data s.data

/-- Python's `s.startswith(pat)`. -/
def strStarts (s pat : String) : Bool :=
  chListPre pat.data s.data

/-- Lookup in an association list, modelling a Python `dict` read. -/
def lookupA {α : Type} : List (String × α) → String → Option α
  | [], _ => none
  | (k, v) :: rest, key => if k = key then some v else lookupA rest key

/-- Update of an association list, modelling a Python `dict` assignment:
an existing key keeps its position and gets the new value, a new key is
appended at the end (Python dicts keep insertion order). -/
def insertA {α : Type} : List (String × α) → String → α → List (String × α)
  | [], key, v => [(key, v)]
  | (k, w) :: rest, key, v =>
    if k = key then (key, v) :: rest else (k, w) :: insertA rest key v

theorem lookupA_insertA_self {α : Type} (l : List (String × α)) (key : String) (v : α) :
    lookupA (insertA l key v) key = some v := by
  induction l with
  | nil => simp [insertA, lookupA]
  | cons p rest ih =>
    obtain ⟨k, w⟩ := p
    by_cases h : k = key
    · simp [insertA, h, lookupA]
    · simp [insertA, h, lookupA, ih]

theorem lookupA_insertA_ne {α : Type} (l : List (String × α)) (key k' : String) (v : α)
    (h : k' ≠ key) : lookupA (insertA l key v) k' = lookupA l k' := by
  induction l with
  | nil => simp [insertA, lookupA, Ne.symm h]
  | cons p rest ih =>
    obtain ⟨k, w⟩ := p
    by_cases hk : k = key
    · subst hk
      simp [insertA, lookupA, Ne.symm h]
    · simp [insertA, hk, lookupA, ih]

/-- A broker-delivered JMS message as the Python code observes it through
jpype.  `klass` is `message.getClass().getName()`; `getTextOk`/`text`
model `message.getText()` (which the source wraps in `try`);
`strRepr` models `str(message)` / `message.toString()`;
`hasGetText`/`hasToString` model the source's `hasattr` probes;
`props` is the property map enumerated by `getPropertyNames`;
`extractFails` marks a message whose id/property/timestamp extraction
raises, i.e. the failure the per-message `except` clauses catch. -/
structure JMsg where
  id : String
  klass : String
  getTextOk : Bool
  text : String
  strRepr : String
  hasGetText : Bool
  hasToString : Bool
  props : List (String × String)
  timestamp : Int
  extractFails : Bool
deriving DecidableEq

/-- The message record dictionary the Python code builds and caches
(keys `id`, `body`, `properties`, `destination`, `type`,
`message_type`, `timestamp`). -/
structure MsgRecord where
  id : String
  body : String
  properties : List (String × String)
  destination : String
  type : String
  message_type : String
  timestamp : Int
deriving DecidableEq

/-- One step of the browse enumeration in `browse_queue`:
a message, a null element (skipped by `if message is None: continue`),
or a failure of `message_enum.nextElement()` itself (the outer
`except ...: break`). -/
inductive BrowseItem where
  | jmsg (m : JMsg)
  | nullMsg
  | enumFault
deriving DecidableEq

/-- Body/`message_type` extraction of `browse_queue` (lines 526-539):
only `TextMessage` is classified; everything else falls through to the
`toString` branch with kind `"string"`, or keeps the initial
`"Unknown data type"`/`"unknown"` pair.  A `getText` failure is caught
and the body becomes `str(message)` while the kind stays `"text"`. -/
def browse_body_type (m : JMsg) : String × String :=
  if strContains m.klass "TextMessage" = true then
    if m.getTextOk then (m.text, "text") else (m.strRepr, "text")
  else if m.hasToString then (m.strRepr, "string")
  else ("Unknown data type", "unknown")

/-- Per-message record extraction of `browse_queue`; `none` models the
inner `except Exception: continue`. -/
def extractRecord (queue_name : String) (m : JMsg) : Option MsgRecord :=
  if m.extractFails then none
  else
    some { id := m.id
           body := (browse_body_type m).1
           properties := m.props
           destination := queue_name
           type := "queue"
           message_type := (browse_body_type m).2
           timestamp := m.timestamp }

/-- The `while message_enum.hasMoreElements()` loop of `browse_queue`:
null elements are skipped, an extraction failure skips that message
(`continue`), an enumeration fault stops the scan keeping what was
collected so far (`break`). -/
def browseLoop (queue_name : String) : List BrowseItem → List MsgRecord
  | [] => []
  | BrowseItem.nullMsg :: rest => browseLoop queue_name rest
  | BrowseItem.enumFault :: _ => []
  | BrowseItem.jmsg m :: rest =>
    match extractRecord queue_name m with
    | some r => r :: browseLoop queue_name rest
    | none => browseLoop queue_name rest

/-- A broker-side handle (JMS session or connection) as held in
`self.session` / `self.connection`; `closeFails` marks a handle whose
`close()` raises. -/
structure Handle where
  closeFails : Bool
deriving DecidableEq

/-- The connection-relevant attributes of `JVMThread`. -/
structure ConnState where
  session : Option Handle
  connection : Option Handle
deriving DecidableEq

/-- The `if self.connection: self.connection.close(); self.connection = None`
part of `disconnect`. -/
def closeConnection (st : ConnState) : Bool × ConnState :=
  match st.connection with
  | some c => if c.closeFails then (false, st) else (true, { st with connection := none })
  | none => (true, st)

/-- `JVMThread.disconnect` (lines 342-357): closes and clears the session,
then the connection, inside one `try`; any `close()` exception is caught
and the method returns `False` -- but the assignments that clear the
handles after the failing close are then skipped. -/
def disconnect (st : ConnState) : Bool × ConnState :=
  match st.session with
  | some s =>
    if s.closeFails then (false, st)
    else closeConnection { st with session := none }
  | none => closeConnection st

/-- `JVMThread.browse_queue` (lines 476-578) reduced to its data path:
the guard `if not self.connection or not self.session: return []`
followed by the enumeration loop.  `items` stands for the sequence of
events the browse cursor produces. -/
def browse_queue (st : ConnState) (queue_name : String) (items : List BrowseItem) :
    List MsgRecord :=
  if st.connection.isSome && st.session.isSome then browseLoop queue_name items
  else []

/-- The id set of a browse result: `{msg['id'] for msg in messages}`. -/
def idsOf (msgs : List MsgRecord) : Finset String :=
  (msgs.map MsgRecord.id).toFinset

/-- Result of one per-queue iteration of the poll loop. -/
structure PollStep where
  cache : List (String × List MsgRecord)
  lastIds : Finset String
  newDetected : Bool

/-- The per-queue body of the poll loop in `queue_monitor_thread`
(lines 851-873): `msgs` is the result of the fresh-view
`self.browse_queue(queue, ...)`.  Only a non-empty browse result is
examined; the cache entry is replaced only when there are ids not in
`lastIds`; the tracked id set is updated (only) inside the
`if messages:` branch. -/
def poll_queue (cache : List (String × List MsgRecord)) (lastIds : Finset String)
    (queue_name : String) (msgs : List MsgRecord) : PollStep :=
  if msgs = [] then ⟨cache, lastIds, false⟩
  else
    let current := idsOf msgs
    if current \ lastIds = ∅ then ⟨cache, current, false⟩
    else ⟨insertA cache ("queue:" ++ queue_name) msgs, current, true⟩

/-- Body extraction of `_on_topic_message` (lines 957-964): `getText`
when present, else `str(message)`, with the `except` fallback text. -/
def topic_body (m : JMsg) : String :=
  if m.hasGetText then
    if m.getTextOk then m.text else "[Could not extract message body]"
  else m.strRepr

/-- The `message_info` dictionary built by `_on_topic_message`
(lines 970-978): properties are hardcoded empty and the kind is
hardcoded `"text"`. -/
def topic_message_info (m : JMsg) (topic_name : String) : MsgRecord :=
  { id := m.id
    body := topic_body m
    properties := []
    destination := topic_name
    type := "topic"
    message_type := "text"
    timestamp := m.timestamp }

/-- `JVMThread._on_topic_message` (lines 945-1000) restricted to its
effect on the message cache: a null message returns immediately, a
message whose header extraction raises is dropped by the surrounding
`except`, otherwise exactly one record is appended to the topic's cache
entry (created as `[]` if absent). -/
def on_topic_message (cache : List (String × List MsgRecord)) (msg : Option JMsg)
    (topic_name : String) : List (String × List MsgRecord) :=
  match msg with
  | none => cache
  | some m =>
    if m.extractFails then cache
    else
      let key := "topic:" ++ topic_name
      let entry := (lookupA cache key).getD []
      insertA cache key (entry ++ [topic_message_info m topic_name])

/-- The monitoring-relevant attributes of `JVMThread`.  `next_consumer`
is a fresh-handle counter modelling `session.createConsumer`: each call
allocates a new broker-side consumer, numbered in creation order.
`connected` models `self.connection and self.session` being set. -/
structure MonState where
  monitored_queues : List String
  monitored_topics : List String
  message_cache : List (String × List MsgRecord)
  topic_consumers : List (String × Nat)
  next_consumer : Nat
  monitor_running : Bool
  connected : Bool

/-- `JVMThread.create_topic_message_listener` (lines 1002-1050): after
the connection guard it unconditionally creates a new consumer,
registers the listener and stores the consumer under `topic:{name}`,
overwriting any existing table entry.  There is no already-subscribed
check in this method. -/
def create_topic_message_listener (st : MonState) (topic_name : String) :
    Option Nat × MonState :=
  if st.connected then
    (some st.next_consumer,
      { st with
          next_consumer := st.next_consumer + 1
          topic_consumers :=
            insertA st.topic_consumers ("topic:" ++ topic_name) st.next_consumer })
  else (none, st)

/-- `JVMThread.emergency_stop_monitoring` (lines 911-943): clears the
running flag, closes and drops all topic consumers, and empties the
monitored lists and the message cache. -/
def emergency_stop_monitoring (st : MonState) : MonState :=
  { st with
      monitor_running := false
      topic_consumers := []
      monitored_queues := []
      monitored_topics := []
      message_cache := [] }

/-- `JVMThread.monitor_all` (lines 790-909) reduced to its state
effect: stop everything, bail out when there is nothing to monitor,
store the destination lists, clear the cache, create one topic listener
per topic, then set the running flag (the poll thread itself is
modelled separately by `poll_queue`). -/
def monitor_all (st : MonState) (queues topics : List String) : MonState :=
  let st1 := emergency_stop_monitoring st
  if queues = [] ∧ topics = [] then st1
  else
    let st2 := { st1 with
                   monitored_queues := queues
                   monitored_topics := topics
                   message_cache := [] }
    let st3 := topics.foldl (fun s t => (create_topic_message_listener s t).2) st2
    { st3 with monitor_running := true }

/-- `JVMThread.start_monitoring` (lines 766-788): appends the name to
the matching monitored list when absent, then delegates to
`monitor_all` with the accumulated lists.  The lists passed survive the
reset done inside `monitor_all` because they are passed by value here
(in Python, the parameter aliases the old list object while the
attribute is rebound). -/
def start_monitoring (st : MonState) (destination_name destination_type : String) :
    MonState :=
  let st1 :=
    if destination_type = "queue" ∧ destination_name ∉ st.monitored_queues then
      { st with monitored_queues := st.monitored_queues ++ [destination_name] }
    else if destination_type = "topic" ∧ destination_name ∉ st.monitored_topics then
      { st with monitored_topics := st.monitored_topics ++ [destination_name] }
    else st
  monitor_all st1 st1.monitored_queues st1.monitored_topics

/-- Input of one `get_destinations` call: the raw queue/topic names the
primary `DestinationSource` strategy would enumerate (`pq`, `pt`) and
the destination names the advisory-topic fallback would receive
(`fq`, `ft`; `""` stands for a null `destinationName` property). -/
structure DiscCall where
  pq : List String
  pt : List String
  fq : List String
  ft : List String
deriving DecidableEq

/-- The strategy part of `get_destinations` (lines 366-445): dedup the
primary listing, filter advisory topics, and only if both lists are
still empty run the advisory fallback with its null-name check. -/
def discover_found (c : DiscCall) : List String × List String :=
  let queues := c.pq.foldl (fun acc n => if n ∈ acc then acc else acc ++ [n]) []
  let topics := c.pt.foldl
    (fun acc n =>
      if n ∈ acc ∨ strStarts n "ActiveMQ.Advisory" = true then acc else acc ++ [n]) []
  if queues = [] ∧ topics = [] then
    let queues2 := c.fq.foldl
      (fun acc n => if n = "" ∨ n ∈ acc then acc else acc ++ [n]) queues
    let topics2 := c.ft.foldl
      (fun acc n =>
        if n = "" ∨ n ∈ acc ∨ strStarts n "ActiveMQ.Advisory" = true then acc
        else acc ++ [n]) topics
    (queues2, topics2)
  else (queues, topics)

/-- `JVMThread.get_destinations` (lines 359-474): the connection guard,
the two strategies, and the last-good-result cache policy of lines
447-463.  `cached` models the `_cached_queues`/`_cached_topics`
attribute pair (absent before the first completed call). -/
def get_destinations (connected : Bool) (c : DiscCall)
    (cached : Option (List String × List String)) :
    (List String × List String) × Option (List String × List String) :=
  if connected then
    let f := discover_found c
    if f = ([], []) then
      match cached with
      | some g => (g, some g)
      | none => (([], []), some ([], []))
    else (f, some f)
  else (([], []), cached)

/-- Runs a sequence of connected `get_destinations` calls, threading the
last-good cache, and returns the final cache. -/
def runD (cached : Option (List String × List String)) :
    List DiscCall → Option (List String × List String)
  | [] => cached
  | c :: rest => runD (get_destinations true c cached).2 rest

/-- The most recent call of the sequence whose strategies yielded a
non-empty result, if any (the head of the list is the oldest call). -/
def lastGood : List DiscCall → Option (List String × List String)
  | [] => none
  | c :: rest =>
    match lastGood rest with
    | some g => some g
    | none => if discover_found c = ([], []) then none else some (discover_found c)

/-- C6 counterexample: a browsed map message is not classified as a map.
`browse_queue`'s extraction handles only `TextMessage`; a `MapMessage`
falls into the `toString` branch and is tagged `"string"`, its body the
raw `toString` text rather than a rendered key-to-value map. -/
theorem browse_map_payload_misclassified :
    (browse_body_type
      ⟨"ID:7", "ActiveMQMapMessage", false, "", "a=1", false, true, [], 0, false⟩).2
        = "string"
    ∧ ("string" : String) ≠ "map" := by
  constructor
  · decide
  · decide

/-- C6 (amended): for every browsed queue message the classification of
`browse_queue` knows only the text kind: a `TextMessage` whose
`getText` succeeds is rendered verbatim with kind `"text"`, every other
declared type falls through to the `toString` rendering with kind
`"string"` (or stays `"unknown"`), so the only kinds browse ever
produces are `"text"`, `"string"` and `"unknown"`. -/
theorem browse_text_only_classification :
    ∀ m : JMsg,
      ((browse_body_type m).2 = "text" ∨ (browse_body_type m).2 = "string" ∨
        (browse_body_type m).2 = "unknown")
      ∧ (strContains m.klass "TextMessage" = true → m.getTextOk = true →
          browse_body_type m = (m.text, "text"))
      ∧ (strContains m.klass "TextMessage" = false → m.hasToString = true →
          browse_body_type m = (m.strRepr, "string")) := by
  intro m
  refine ⟨?_, ?_, ?_⟩
  · by_cases h1 : strContains m.klass "TextMessage" = true
    · by_cases h2 : m.getTextOk = true <;> simp [browse_body_type, h1, h2]
    · by_cases h3 : m.hasToString = true <;> simp [browse_body_type, h1, h3]
  · intro h1 h2
    simp [browse_body_type, h1, h2]
  · intro h1 h2
    simp [browse_body_type, h1, h2]

/-- C6 witness: a text message is rendered verbatim with kind `"text"`;
a bytes message is rendered via `toString` with kind `"string"`. -/
theorem browse_text_only_classification_witness :
    browse_body_type
        ⟨"ID:1", "ActiveMQTextMessage", true, "hello", "r", true, true, [], 0, false⟩
      = ("hello", "text")
    ∧ browse_body_type
        ⟨"ID:2", "ActiveMQBytesMessage", false, "", "bin", false, true, [], 0, false⟩
      = ("bin", "string") :=
  ⟨(browse_text_only_classification
      ⟨"ID:1", "ActiveMQTextMessage", true, "hello", "r", true, true, [], 0, false⟩).2.1
      (by decide) rfl,
   (browse_text_only_classification
      ⟨"ID:2", "ActiveMQBytesMessage", false, "", "bin", false, true, [], 0, false⟩).2.2
      (by decide) rfl⟩

/-- C7: browsing is best-effort and tolerant of per-item failures: a
message whose extraction raises is skipped and the scan continues with
the rest; a failure of the enumeration itself stops the scan keeping
exactly the records collected before it; a browse without an open
session or connection returns `[]` without touching the broker. -/
theorem browse_best_effort :
    (∀ (q : String) (pre suf : List BrowseItem) (m : JMsg), m.extractFails = true →
      browseLoop q (pre ++ BrowseItem.jmsg m :: suf) = browseLoop q (pre ++ suf))
    ∧ (∀ (q : String) (pre suf : List BrowseItem),
      browseLoop q (pre ++ BrowseItem.enumFault :: suf) = browseLoop q pre)
    ∧ (∀ (st : ConnState) (q : String) (items : List BrowseItem),
      st.session = none ∨ st.connection = none → browse_queue st q items = []) := by
  refine ⟨?_, ?_, ?_⟩
  · intro q pre suf m hm
    induction pre with
    | nil => simp [browseLoop, extractRecord, hm]
    | cons it rest ih =>
      cases it with
      | jmsg m' =>
        simp only [List.cons_append, browseLoop]
        cases h : extractRecord q m' <;> simp [ih]
      | nullMsg => simpa [browseLoop] using ih
      | enumFault => simp [browseLoop]
  · intro q pre suf
    induction pre with
    | nil => simp [browseLoop]
    | cons it rest ih =>
      cases it with
      | jmsg m' =>
        simp only [List.cons_append, browseLoop]
        cases h : extractRecord q m' <;> simp [ih]
      | nullMsg => simpa [browseLoop] using ih
      | enumFault => simp [browseLoop]
  · intro st q items h
    cases h with
    | inl h => simp [browse_queue, h]
    | inr h => simp [browse_queue, h]

/-- C7 witness: in a batch of five where message 3 raises during
extraction, the browse yields exactly the other four records; an
enumeration fault after the first message keeps that first record; a
disconnected browse yields `[]`.  The four surviving records are
checked explicitly. -/
theorem browse_best_effort_witness :
    browseLoop "Q"
        [BrowseItem.jmsg ⟨"ID:1", "ActiveMQTextMessage", true, "a", "r", true, true, [], 0, false⟩,
         BrowseItem.jmsg ⟨"ID:2", "ActiveMQTextMessage", true, "b", "r", true, true, [], 0, false⟩,
         BrowseItem.jmsg ⟨"ID:3", "ActiveMQTextMessage", true, "c", "r", true, true, [], 0, true⟩,
         BrowseItem.jmsg ⟨"ID:4", "ActiveMQTextMessage", true, "d", "r", true, true, [], 0, false⟩,
         BrowseItem.jmsg ⟨"ID:5", "ActiveMQTextMessage", true, "e", "r", true, true, [], 0, false⟩]
      = browseLoop "Q"
        [BrowseItem.jmsg ⟨"ID:1", "ActiveMQTextMessage", true, "a", "r", true, true, [], 0, false⟩,
         BrowseItem.jmsg ⟨"ID:2", "ActiveMQTextMessage", true, "b", "r", true, true, [], 0, false⟩,
         BrowseItem.jmsg ⟨"ID:4", "ActiveMQTextMessage", true, "d", "r", true, true, [], 0, false⟩,
         BrowseItem.jmsg ⟨"ID:5", "ActiveMQTextMessage", true, "e", "r", true, true, [], 0, false⟩]
    ∧ (browseLoop "Q"
        [BrowseItem.jmsg ⟨"ID:1", "ActiveMQTextMessage", true, "a", "r", true, true, [], 0, false⟩,
         BrowseItem.jmsg ⟨"ID:2", "ActiveMQTextMessage", true, "b", "r", true, true, [], 0, false⟩,
         BrowseItem.jmsg ⟨"ID:3", "ActiveMQTextMessage", true, "c", "r", true, true, [], 0, true⟩,
         BrowseItem.jmsg ⟨"ID:4", "ActiveMQTextMessage", true, "d", "r", true, true, [], 0, false⟩,
         BrowseItem.jmsg ⟨"ID:5", "ActiveMQTextMessage", true, "e", "r", true, true, [], 0, false⟩]).length
      = 4
    ∧ browseLoop "Q"
        [BrowseItem.jmsg ⟨"ID:1", "ActiveMQTextMessage", true, "a", "r", true, true, [], 0, false⟩,
         BrowseItem.enumFault,
         BrowseItem.jmsg ⟨"ID:2", "ActiveMQTextMessage", true, "b", "r", true, true, [], 0, false⟩]
      = browseLoop "Q"
        [BrowseItem.jmsg ⟨"ID:1", "ActiveMQTextMessage", true, "a", "r", true, true, [], 0, false⟩]
    ∧ browse_queue ⟨none, none⟩ "Q"
        [BrowseItem.jmsg ⟨"ID:1", "ActiveMQTextMessage", true, "a", "r", true, true, [], 0, false⟩]
      = [] :=
  ⟨browse_best_effort.1 "Q"
      [BrowseItem.jmsg ⟨"ID:1", "ActiveMQTextMessage", true, "a", "r", true, true, [], 0, false⟩,
       BrowseItem.jmsg ⟨"ID:2", "ActiveMQTextMessage", true, "b", "r", true, true, [], 0, false⟩]
      [BrowseItem.jmsg ⟨"ID:4", "ActiveMQTextMessage", true, "d", "r", true, true, [], 0, false⟩,
       BrowseItem.jmsg ⟨"ID:5", "ActiveMQTextMessage", true, "e", "r", true, true, [], 0, false⟩]
      ⟨"ID:3", "ActiveMQTextMessage", true, "c", "r", true, true, [], 0, true⟩ rfl,
   by decide,
   browse_best_effort.2.1 "Q"
      [BrowseItem.jmsg ⟨"ID:1", "ActiveMQTextMessage", true, "a", "r", true, true, [], 0, false⟩]
      [BrowseItem.jmsg ⟨"ID:2", "ActiveMQTextMessage", true, "b", "r", true, true, [], 0, false⟩],
   browse_best_effort.2.2 ⟨none, none⟩ "Q"
      [BrowseItem.jmsg ⟨"ID:1", "ActiveMQTextMessage", true, "a", "r", true, true, [], 0, false⟩]
      (Or.inl rfl)⟩

/-- C8 counterexample: when `session.close()` raises, `disconnect`
returns `False` and the session handle is NOT cleared -- the exception
jumps over the `self.session = None` assignment into the `except`
block, so the handles are not always cleared. -/
theorem disconnect_failed_close_keeps_handles :
    (disconnect ⟨some ⟨true⟩, some ⟨false⟩⟩).2.session ≠ none
    ∧ (disconnect ⟨some ⟨true⟩, some ⟨false⟩⟩).1 = false := by
  decide

/-- C8 (amended): `disconnect` never raises (every close failure is
caught and turned into a `False` return) and is idempotent as a state
transformer; it clears both handles whenever the underlying `close()`
calls succeed, but a failing close leaves the failing handle (and any
handle processed after it) set. -/
theorem disconnect_clear_and_idempotent :
    ∀ st : ConnState,
      ((∀ s, st.session = some s → s.closeFails = false) →
        (∀ c, st.connection = some c → c.closeFails = false) →
        disconnect st = (true, ⟨none, none⟩))
      ∧ disconnect (disconnect st).2 = disconnect st := by
  intro st
  constructor
  · intro hs hc
    obtain ⟨sess, conn⟩ := st
    cases sess with
    | none =>
      cases conn with
      | none => rfl
      | some c => simp [disconnect, closeConnection, hc c rfl]
    | some s =>
      cases conn with
      | none => simp [disconnect, closeConnection, hs s rfl]
      | some c => simp [disconnect, closeConnection, hs s rfl, hc c rfl]
  · rcases st with ⟨_ | ⟨_ | _⟩, _ | ⟨_ | _⟩⟩ <;> rfl

/-- C8 witness: with a session and connection whose closes succeed,
`disconnect` returns `True` and clears both handles. -/
theorem disconnect_clear_and_idempotent_witness :
    disconnect ⟨some ⟨false⟩, some ⟨false⟩⟩ = (true, ⟨none, none⟩) :=
  (disconnect_clear_and_idempotent ⟨some ⟨false⟩, some ⟨false⟩⟩).1
    (fun s hs => by cases hs; rfl) (fun c hc => by cases hc; rfl)

/-- C1 counterexample: a re-browse that returns the empty list does NOT
replace the queue's cache entry -- the whole update sits inside
`if messages:` -- so the entry keeps the previous snapshot instead of
becoming the latest browse result. -/
theorem queue_poll_cache_kept_on_empty_browse :
    lookupA (poll_queue
        [("queue:Q1", [⟨"ID:old", "old", [], "Q1", "queue", "text", 0⟩])]
        {"ID:old"} "Q1" []).cache "queue:Q1"
      = some [⟨"ID:old", "old", [], "Q1", "queue", "text", 0⟩]
    ∧ some [(⟨"ID:old", "old", [], "Q1", "queue", "text", 0⟩ : MsgRecord)]
        ≠ some ([] : List MsgRecord) := by
  constructor
  · decide
  · decide

/-- C1 (amended): a polled queue's cache entry is replaced -- wholesale,
with exactly the latest browse result, never a merge -- precisely when
that browse returned a non-empty list containing at least one id not in
`lastSeenIds`; when the browse result is empty, or yields no new ids,
the cache is left untouched. -/
theorem queue_poll_cache_replace_policy :
    ∀ (cache : List (String × List MsgRecord)) (last : Finset String)
      (q : String) (msgs : List MsgRecord),
      (msgs ≠ [] → idsOf msgs \ last ≠ ∅ →
        lookupA (poll_queue cache last q msgs).cache ("queue:" ++ q) = some msgs)
      ∧ (msgs = [] → (poll_queue cache last q msgs).cache = cache)
      ∧ (idsOf msgs \ last = ∅ → (poll_queue cache last q msgs).cache = cache) := by
  intro cache last q msgs
  refine ⟨?_, ?_, ?_⟩
  · intro hne hnew
    simp [poll_queue, hne, hnew, lookupA_insertA_self]
  · intro h
    simp [poll_queue, h]
  · intro h
    by_cases hne : msgs = []
    · simp [poll_queue, hne]
    · simp [poll_queue, hne, h]

/-- C1 witness: a browse with one new id replaces a differing old entry
with exactly the new browse result (no union); the same poll body with
no new ids leaves the cache untouched. -/
theorem queue_poll_cache_replace_policy_witness :
    lookupA (poll_queue
        [("queue:Q1", [⟨"ID:old", "old", [], "Q1", "queue", "text", 0⟩])]
        {"ID:old"} "Q1"
        [⟨"ID:new", "new", [], "Q1", "queue", "text", 1⟩]).cache "queue:Q1"
      = some [⟨"ID:new", "new", [], "Q1", "queue", "text", 1⟩]
    ∧ (poll_queue
        [("queue:Q1", [⟨"ID:old", "old", [], "Q1", "queue", "text", 0⟩])]
        {"ID:old"} "Q1"
        [⟨"ID:old", "old", [], "Q1", "queue", "text", 0⟩]).cache
      = [("queue:Q1", [⟨"ID:old", "old", [], "Q1", "queue", "text", 0⟩])] :=
  ⟨(queue_poll_cache_replace_policy
      [("queue:Q1", [⟨"ID:old", "old", [], "Q1", "queue", "text", 0⟩])]
      {"ID:old"} "Q1" [⟨"ID:new", "new", [], "Q1", "queue", "text", 1⟩]).1
      (by decide) (by decide),
   (queue_poll_cache_replace_policy
      [("queue:Q1", [⟨"ID:old", "old", [], "Q1", "queue", "text", 0⟩])]
      {"ID:old"} "Q1" [⟨"ID:old", "old", [], "Q1", "queue", "text", 0⟩]).2.2
      (by decide)⟩

/-- C4 counterexample: after a poll whose browse result is empty the
`lastSeenIds` entry is NOT updated to the (empty) id set of that result
-- the update sits inside `if messages:` -- so it keeps the old ids. -/
theorem lastSeen_kept_on_empty_browse :
    (poll_queue [] {"ID:old"} "Q1" []).lastIds ≠ idsOf [] := by
  decide

/-- C4 (amended): after every poll whose browse result is non-empty the
`lastSeenIds` entry equals the id set of that browse result, whether or
not new ids were found; a poll whose browse result is empty leaves the
entry unchanged. -/
theorem lastSeen_update_policy :
    ∀ (cache : List (String × List MsgRecord)) (last : Finset String)
      (q : String) (msgs : List MsgRecord),
      (msgs ≠ [] → (poll_queue cache last q msgs).lastIds = idsOf msgs)
      ∧ (msgs = [] → (poll_queue cache last q msgs).lastIds = last) := by
  intro cache last q msgs
  constructor
  · intro h
    by_cases hn : idsOf msgs \ last = ∅ <;> simp [poll_queue, h, hn]
  · intro h
    simp [poll_queue, h]

/-- C4 witness: a poll that finds only already-seen ids still updates
the tracked id set to the browse result's id set. -/
theorem lastSeen_update_policy_witness :
    (poll_queue [] {"ID:1"} "Q1"
        [⟨"ID:1", "a", [], "Q1", "queue", "text", 0⟩]).lastIds
      = idsOf [⟨"ID:1", "a", [], "Q1", "queue", "text", 0⟩] :=
  (lastSeen_update_policy [] {"ID:1"} "Q1"
      [⟨"ID:1", "a", [], "Q1", "queue", "text", 0⟩]).1 (by decide)

/-- C3: the topic callback is append-only: a non-null message whose
header extraction succeeds appends exactly one record to that topic's
cache entry (even when its id already occurs in the entry -- no
dedup for topics), other cache entries are untouched, and a message
whose extraction raises changes nothing (so nothing is ever removed or
replaced). -/
theorem topic_callback_append_only :
    ∀ (cache : List (String × List MsgRecord)) (m : JMsg) (t : String),
      (m.extractFails = false →
        lookupA (on_topic_message cache (some m) t) ("topic:" ++ t)
          = some (((lookupA cache ("topic:" ++ t)).getD [])
              ++ [topic_message_info m t]))
      ∧ (∀ k, k ≠ "topic:" ++ t →
        lookupA (on_topic_message cache (some m) t) k = lookupA cache k)
      ∧ (m.extractFails = true → on_topic_message cache (some m) t = cache) := by
  intro cache m t
  refine ⟨?_, ?_, ?_⟩
  · intro h
    simp [on_topic_message, h, lookupA_insertA_self]
  · intro k hk
    by_cases h : m.extractFails = true
    · simp [on_topic_message, h]
    · simp [on_topic_message, h, lookupA_insertA_ne _ _ _ _ hk]
  · intro h
    simp [on_topic_message, h]

/-- C3 witness: delivering a message whose id already sits in the
topic's cache entry appends it again (entry grows from one to two
records, the existing record is kept), and an unrelated key is not
affected. -/
theorem topic_callback_append_only_witness :
    lookupA (on_topic_message
        [("topic:alerts",
          [topic_message_info
            ⟨"ID:1", "ActiveMQTextMessage", true, "hi", "r", true, true, [], 5, false⟩
            "alerts"])]
        (some ⟨"ID:1", "ActiveMQTextMessage", true, "hi", "r", true, true, [], 5, false⟩)
        "alerts") "topic:alerts"
      = some (((lookupA
          [("topic:alerts",
            [topic_message_info
              ⟨"ID:1", "ActiveMQTextMessage", true, "hi", "r", true, true, [], 5, false⟩
              "alerts"])] "topic:alerts").getD [])
        ++ [topic_message_info
              ⟨"ID:1", "ActiveMQTextMessage", true, "hi", "r", true, true, [], 5, false⟩
              "alerts"])
    ∧ ((lookupA (on_topic_message
        [("topic:alerts",
          [topic_message_info
            ⟨"ID:1", "ActiveMQTextMessage", true, "hi", "r", true, true, [], 5, false⟩
            "alerts"])]
        (some ⟨"ID:1", "ActiveMQTextMessage", true, "hi", "r", true, true, [], 5, false⟩)
        "alerts") "topic:alerts").getD []).length = 2
    ∧ lookupA (on_topic_message
        [("topic:alerts",
          [topic_message_info
            ⟨"ID:1", "ActiveMQTextMessage", true, "hi", "r", true, true, [], 5, false⟩
            "alerts"])]
        (some ⟨"ID:1", "ActiveMQTextMessage", true, "hi", "r", true, true, [], 5, false⟩)
        "alerts") "topic:other"
      = lookupA
        [("topic:alerts",
          [topic_message_info
            ⟨"ID:1", "ActiveMQTextMessage", true, "hi", "r", true, true, [], 5, false⟩
            "alerts"])] "topic:other" :=
  ⟨(topic_callback_append_only
      [("topic:alerts",
        [topic_message_info
          ⟨"ID:1", "ActiveMQTextMessage", true, "hi", "r", true, true, [], 5, false⟩
          "alerts"])]
      ⟨"ID:1", "ActiveMQTextMessage", true, "hi", "r", true, true, [], 5, false⟩
      "alerts").1 rfl,
   by decide,
   (topic_callback_append_only
      [("topic:alerts",
        [topic_message_info
          ⟨"ID:1", "ActiveMQTextMessage", true, "hi", "r", true, true, [], 5, false⟩
          "alerts"])]
      ⟨"ID:1", "ActiveMQTextMessage", true, "hi", "r", true, true, [], 5, false⟩
      "alerts").2.1 "topic:other" (by decide)⟩

/-- C10: every record the topic push callback builds has an empty
properties map and `message_type` `"text"`, whatever the delivered
message looked like; in contrast, a record extracted by a queue browse
carries the message's enumerated properties. -/
theorem topic_record_fixed_fields :
    (∀ (m : JMsg) (t : String),
      (topic_message_info m t).properties = []
        ∧ (topic_message_info m t).message_type = "text")
    ∧ (∀ (q : String) (m : JMsg), m.extractFails = false →
      ∃ r, extractRecord q m = some r ∧ r.properties = m.props) := by
  constructor
  · intro m t
    exact ⟨rfl, rfl⟩
  · intro q m h
    unfold extractRecord
    rw [if_neg (by simp [h])]
    exact ⟨_, rfl, rfl⟩

/-- C10 witness: a map message with broker properties delivered via the
topic callback still yields an empty properties map and kind `"text"`,
while browsing the same message keeps its properties. -/
theorem topic_record_fixed_fields_witness :
    ((topic_message_info
        ⟨"ID:9", "ActiveMQMapMessage", false, "", "m", false, true, [("k", "v")], 7, false⟩
        "alerts").properties = []
      ∧ (topic_message_info
        ⟨"ID:9", "ActiveMQMapMessage", false, "", "m", false, true, [("k", "v")], 7, false⟩
        "alerts").message_type = "text")
    ∧ ∃ r, extractRecord "Q"
        ⟨"ID:9", "ActiveMQMapMessage", false, "", "m", false, true, [("k", "v")], 7, false⟩
          = some r
        ∧ r.properties
          = (⟨"ID:9", "ActiveMQMapMessage", false, "", "m", false, true, [("k", "v")], 7,
              false⟩ : JMsg).props :=
  ⟨topic_record_fixed_fields.1
      ⟨"ID:9", "ActiveMQMapMessage", false, "", "m", false, true, [("k", "v")], 7, false⟩
      "alerts",
   topic_record_fixed_fields.2 "Q"
      ⟨"ID:9", "ActiveMQMapMessage", false, "", "m", false, true, [("k", "v")], 7, false⟩
      rfl⟩

/-- C2 counterexample: two `create_topic_message_listener` calls for the
same topic name while connected return two DIFFERENT consumer handles
and allocate two broker-side consumers (the second overwrites the table
entry; nothing checks for an existing subscription inside this method). -/
theorem subscribe_twice_new_consumer :
    (create_topic_message_listener ⟨[], [], [], [], 0, false, true⟩ "alerts").1 = some 0
    ∧ (create_topic_message_listener
        (create_topic_message_listener ⟨[], [], [], [], 0, false, true⟩ "alerts").2
        "alerts").1 = some 1
    ∧ (some 0 : Option Nat) ≠ some 1
    ∧ (create_topic_message_listener
        (create_topic_message_listener ⟨[], [], [], [], 0, false, true⟩ "alerts").2
        "alerts").2.next_consumer = 2 := by
  refine ⟨?_, ?_, ?_, ?_⟩ <;> decide

/-- C2 (amended): `create_topic_message_listener` is NOT idempotent:
every call made while connected allocates a fresh consumer, returns its
(new) handle, and overwrites the consumer-table entry for the topic, so
a repeated subscribe returns a different handle instead of the existing
one.  The duplicate-subscription guard exists only in the callers
(`destination_selected` checks the table first) and in
`subscribe_to_topic`. -/
theorem subscribe_always_creates_consumer :
    ∀ (st : MonState) (t : String), st.connected = true →
      (create_topic_message_listener st t).1 = some st.next_consumer
      ∧ (create_topic_message_listener st t).2.next_consumer = st.next_consumer + 1
      ∧ lookupA (create_topic_message_listener st t).2.topic_consumers ("topic:" ++ t)
          = some st.next_consumer
      ∧ (create_topic_message_listener (create_topic_message_listener st t).2 t).1
          = some (st.next_consumer + 1) := by
  intro st t h
  refine ⟨?_, ?_, ?_, ?_⟩ <;>
    simp [create_topic_message_listener, h, lookupA_insertA_self]

/-- C2 witness: from a connected state whose counter is at 5, the first
subscribe hands out consumer 5, bumps the counter, stores 5 in the
table, and a second subscribe hands out consumer 6. -/
theorem subscribe_always_creates_consumer_witness :
    (create_topic_message_listener ⟨[], [], [], [], 5, false, true⟩ "alerts").1 = some 5
    ∧ (create_topic_message_listener
        ⟨[], [], [], [], 5, false, true⟩ "alerts").2.next_consumer = 5 + 1
    ∧ lookupA (create_topic_message_listener
        ⟨[], [], [], [], 5, false, true⟩ "alerts").2.topic_consumers ("topic:" ++ "alerts")
        = some 5
    ∧ (create_topic_message_listener
        (create_topic_message_listener ⟨[], [], [], [], 5, false, true⟩ "alerts").2
        "alerts").1 = some (5 + 1) :=
  subscribe_always_creates_consumer ⟨[], [], [], [], 5, false, true⟩ "alerts" rfl

theorem create_listener_keeps_queues (s : MonState) (t : String) :
    ((create_topic_message_listener s t).2).monitored_queues = s.monitored_queues := by
  by_cases h : s.connected = true <;> simp [create_topic_message_listener, h]

theorem foldl_create_listener_keeps_queues (topics : List String) (s : MonState) :
    (topics.foldl (fun s t => (create_topic_message_listener s t).2) s).monitored_queues
      = s.monitored_queues := by
  induction topics generalizing s with
  | nil => rfl
  | cons t rest ih => rw [List.foldl_cons, ih, create_listener_keeps_queues]

theorem monitor_all_queues (st : MonState) (queues topics : List String)
    (h : queues ≠ []) : (monitor_all st queues topics).monitored_queues = queues := by
  unfold monitor_all
  rw [if_neg (by simp [h])]
  simp [foldl_create_listener_keeps_queues]

theorem start_monitoring_queue_list (st : MonState) (n : String) :
    (start_monitoring st n "queue").monitored_queues
      = (if n ∈ st.monitored_queues then st.monitored_queues
         else st.monitored_queues ++ [n]) := by
  unfold start_monitoring
  by_cases h : n ∈ st.monitored_queues
  · rw [if_neg (by simp [h]), if_neg (by simp)]
    rw [monitor_all_queues _ _ _ (List.ne_nil_of_mem h), if_pos h]
  · rw [if_pos ⟨rfl, h⟩]
    rw [monitor_all_queues _ _ _ (by simp), if_neg h]

/-- C9: `start_monitoring` is additive: starting `n₁` as a queue and
then `n₂` as a queue leaves both names in `monitored_queues`, even
though each call delegates to `monitor_all`, which begins with
`emergency_stop_monitoring` and so resets the monitored lists -- the
accumulated list passed as an argument survives that reset. -/
theorem startOne_additive :
    ∀ (st : MonState) (n₁ n₂ : String),
      n₁ ∈ (start_monitoring (start_monitoring st n₁ "queue") n₂ "queue").monitored_queues
      ∧ n₂ ∈ (start_monitoring (start_monitoring st n₁ "queue") n₂ "queue").monitored_queues := by
  intro st n₁ n₂
  have h1 : n₁ ∈ (start_monitoring st n₁ "queue").monitored_queues := by
    rw [start_monitoring_queue_list]
    by_cases h : n₁ ∈ st.monitored_queues
    · simp [h]
    · simp [h]
  constructor
  · rw [start_monitoring_queue_list]
    by_cases h : n₂ ∈ (start_monitoring st n₁ "queue").monitored_queues
    · simpa [h] using h1
    · simp only [if_neg h, List.mem_append]
      exact Or.inl h1
  · rw [start_monitoring_queue_list]
    by_cases h : n₂ ∈ (start_monitoring st n₁ "queue").monitored_queues
    · simp [h]
    · simp [h]

theorem lastGood_ne_empty (calls : List DiscCall) (g : List String × List String)
    (h : lastGood calls = some g) : g ≠ ([], []) := by
  induction calls generalizing g with
  | nil => simp [lastGood] at h
  | cons c rest ih =>
    rw [lastGood] at h
    cases hr : lastGood rest with
    | some g' =>
      rw [hr] at h
      exact (Option.some.inj h) ▸ ih g' hr
    | none =>
      rw [hr] at h
      by_cases hf : discover_found c = ([], [])
      · rw [if_pos hf] at h
        exact absurd h (by simp)
      · rw [if_neg hf] at h
        exact (Option.some.inj h) ▸ hf

theorem runD_cache (calls : List DiscCall) :
    ∀ cached : Option (List String × List String),
      runD cached calls =
        if calls = [] then cached
        else some ((lastGood calls).getD (cached.getD ([], []))) := by
  induction calls with
  | nil =>
    intro cached
    simp [runD]
  | cons c rest ih =>
    intro cached
    rw [runD, ih]
    by_cases hf : discover_found c = ([], [])
    · have h2 : (get_destinations true c cached).2 = some (cached.getD ([], [])) := by
        cases cached <;> simp [get_destinations, hf]
      have hl : lastGood (c :: rest) = lastGood rest := by
        rw [lastGood]
        cases hr : lastGood rest <;> simp [hf]
      rw [h2, hl]
      rcases rest with _ | ⟨c', rest'⟩
      · simp [lastGood]
      · simp
    · have h2 : (get_destinations true c cached).2 = some (discover_found c) := by
        simp [get_destinations, hf]
      rw [h2]
      cases hr : lastGood rest with
      | some g =>
        have hl : lastGood (c :: rest) = some g := by rw [lastGood, hr]
        have hrest : rest ≠ [] := by
          intro he
          rw [he] at hr
          simp [lastGood] at hr
        rw [hl]
        simp [hrest, hr]
      | none =>
        have hl : lastGood (c :: rest) = some (discover_found c) := by
          rw [lastGood, hr]
          simp [hf]
        rw [hl]
        rcases rest with _ | ⟨c', rest'⟩ <;> simp [hr]

/-- C5: the discovery cache policy: a call whose strategies find
something returns exactly that and overwrites the last-good cache; in
any sequence of connected calls, a call whose strategies find nothing
returns the result of the most recent call that found something (when
one exists); and a connected call returns empty lists only when no call
of the sequence -- the current one included -- ever found anything. -/
theorem discovery_last_good_policy :
    (∀ (c : DiscCall) (cached : Option (List String × List String)),
      discover_found c ≠ ([], []) →
        get_destinations true c cached = (discover_found c, some (discover_found c)))
    ∧ (∀ (calls : List DiscCall) (c : DiscCall),
      discover_found c = ([], []) →
        (get_destinations true c (runD none calls)).1 = (lastGood calls).getD ([], []))
    ∧ (∀ (calls : List DiscCall) (c : DiscCall),
      (get_destinations true c (runD none calls)).1 = ([], []) →
        lastGood calls = none ∧ discover_found c = ([], [])) := by
  refine ⟨?_, ?_, ?_⟩
  · intro c cached hf
    simp [get_destinations, hf]
  · intro calls c hf
    rw [runD_cache]
    rcases calls with _ | ⟨c', rest⟩
    · simp [get_destinations, hf, lastGood]
    · simp [get_destinations, hf]
  · intro calls c h
    by_cases hf : discover_found c = ([], [])
    · refine ⟨?_, hf⟩
      rw [runD_cache] at h
      rcases calls with _ | ⟨c', rest⟩
      · simp [lastGood]
      · cases hg : lastGood (c' :: rest) with
        | some g =>
          exfalso
          rw [hg] at h
          simp [get_destinations, hf] at h
          exact lastGood_ne_empty (c' :: rest) g hg h
        | none => rfl
    · exfalso
      have hout : (get_destinations true c (runD none calls)).1 = discover_found c := by
        simp [get_destinations, hf]
      rw [hout] at h
      exact hf h

/-- C5 witness: a first call that discovers queue `orders` caches it;
a second call whose strategies find nothing is served that cached
result `(["orders"], [])` instead of flickering to empty. -/
theorem discovery_last_good_policy_witness :
    get_destinations true ⟨["orders"], [], [], []⟩ none
      = (discover_found ⟨["orders"], [], [], []⟩,
         some (discover_found ⟨["orders"], [], [], []⟩))
    ∧ (get_destinations true ⟨[], [], [], []⟩
        (runD none [⟨["orders"], [], [], []⟩])).1
      = (lastGood [⟨["orders"], [], [], []⟩]).getD ([], [])
    ∧ (lastGood [(⟨["orders"], [], [], []⟩ : DiscCall)]).getD ([], [])
      = (["orders"], []) :=
  ⟨discovery_last_good_policy.1 ⟨["orders"], [], [], []⟩ none (by decide),
   discovery_last_good_policy.2.1 [⟨["orders"], [], [], []⟩] ⟨[], [], [], []⟩ (by decide),
   by decide⟩

end QueueMonitor
